import Mathlib

/-!
Verification of the orchestration layer in Models/LLM/LLM.py: the BERT, GPT
and Llama wrapper classes, their single-device run methods, their DDP worker
functions and their DDP launcher methods.

The embedding is shallow: each Python method body is transcribed either as a
pure function (checkpoint-path construction, __init__ attribute assignment),
as a straight-line list of observable events (for ordering and resource
claims), or as a sequential composition in the Except monad (for
error-propagation claims).  External collaborators that the file imports
(data_processor, pandas, the model factories, torch.multiprocessing.spawn,
the trainer module) are modelled as parameters or, where a claim depends on
their documented contract, as clearly marked definitions.
-/

set_option linter.unusedVariables false

namespace LLMModule

/-- Modelled from the spec: prepare_const is imported from trainer.py, which is
not under src/.  Spec section 4.1: given epoch count, batch size, learning
rate, checkpoint interval and a model name tag, it returns an immutable
configuration record exposing at minimum the total epoch count and the model
name.  The learning rate is payload never inspected by this layer, so it is
kept at an arbitrary type L. -/
structure Const (L : Type) where
  total_epochs : Nat
  batch_size : Nat
  lr : L
  save_every : Nat
  model_name : String

/-- Modelled from the spec: the config-builder function prepare_const from
trainer.py (not under src/), per spec section 4.1. -/
def prepare_const {L : Type} (num_epochs batch_size : Nat) (lr : L)
    (save_every : Nat) (model_name : String) : Const L :=
  { total_epochs := num_epochs
    batch_size := batch_size
    lr := lr
    save_every := save_every
    model_name := model_name }

/-- External collaborators used by the three __init__ methods, kept
abstract: data_processor construction takes (path, input_col, output_col,
encoding); label_converter and the two prepare_dataset variants are methods
on that processor, so they are modelled as functions of the processor's
construction arguments; read_csv takes (path, encoding); getCol models
DataFrame column selection df[col]. -/
structure Ext (DF S DS : Type) where
  read_csv : String → String → DF
  label_converter : String → String → String → String → DF
  getCol : DF → String → S
  prepare_dataset_BERT : String → String → String → String → DF → String → DS × DS × DS
  prepare_dataset : String → String → String → String → DF → String → DS × DS × DS

/-- The attributes assigned by the __init__ methods of all three wrapper
classes (they assign the identical attribute set). -/
structure Wrapper (DF S DS : Type) where
  df : DF
  checkpoint : String
  X : S
  y : S
  train_dataset : DS
  test_dataset : DS
  val_dataset : DS

/-- BERT.__init__: builds a data_processor, reads the csv (a dead store,
immediately overwritten by label_converter's result), fixes the checkpoint
to bert-base-uncased, selects the two columns and builds the three datasets
with prepare_dataset_BERT.  The parameters max_length, test_size, val_size
and seed appear in the Python signature but are never read, so they are
accepted at arbitrary types. -/
def BERT_init {DF S DS M T V SD : Type} (ext : Ext DF S DS)
    (data_path input_col output_col : String)
    (max_length : M) (test_size : T) (val_size : V) (seed : SD)
    (encoding : String) : Wrapper DF S DS :=
  let dfRead := ext.read_csv data_path encoding
  let df := ext.label_converter data_path input_col output_col encoding
  let checkpoint := "bert-base-uncased"
  let datasets := ext.prepare_dataset_BERT data_path input_col output_col encoding df checkpoint
  { df := df
    checkpoint := checkpoint
    X := ext.getCol df input_col
    y := ext.getCol df output_col
    train_dataset := datasets.1
    test_dataset := datasets.2.1
    val_dataset := datasets.2.2 }

/-- GPT.__init__: identical to BERT.__init__ except the checkpoint is gpt2
and the datasets come from prepare_dataset. -/
def GPT_init {DF S DS M T V SD : Type} (ext : Ext DF S DS)
    (data_path input_col output_col : String)
    (max_length : M) (test_size : T) (val_size : V) (seed : SD)
    (encoding : String) : Wrapper DF S DS :=
  let dfRead := ext.read_csv data_path encoding
  let df := ext.label_converter data_path input_col output_col encoding
  let checkpoint := "gpt2"
  let datasets := ext.prepare_dataset data_path input_col output_col encoding df checkpoint
  { df := df
    checkpoint := checkpoint
    X := ext.getCol df input_col
    y := ext.getCol df output_col
    train_dataset := datasets.1
    test_dataset := datasets.2.1
    val_dataset := datasets.2.2 }

/-- Llama.__init__: identical shape, with the meta-llama/Llama-2-7b-hf
checkpoint and prepare_dataset. -/
def Llama_init {DF S DS M T V SD : Type} (ext : Ext DF S DS)
    (data_path input_col output_col : String)
    (max_length : M) (test_size : T) (val_size : V) (seed : SD)
    (encoding : String) : Wrapper DF S DS :=
  let dfRead := ext.read_csv data_path encoding
  let df := ext.label_converter data_path input_col output_col encoding
  let checkpoint := "meta-llama/Llama-2-7b-hf"
  let datasets := ext.prepare_dataset data_path input_col output_col encoding df checkpoint
  { df := df
    checkpoint := checkpoint
    X := ext.getCol df input_col
    y := ext.getCol df output_col
    train_dataset := datasets.1
    test_dataset := datasets.2.1
    val_dataset := datasets.2.2 }

/-- The single path-construction pattern this layer uses, as a function of
model name and epoch index.  All call sites below are proved equal to an
application of this function, which is the purity invariant of spec
section 3. -/
def checkpointPath (model_name : String) (epoch : Nat) : String :=
  "./trained_" ++ model_name ++ "/Nuclear_epoch" ++ toString epoch ++ ".pt"

/-- Models pathlib.Path normalization of the relative paths built here:
Path drops a leading dot-slash segment, so str(Path("./a/b.pt")) is
"a/b.pt".  Several call sites wrap their path string in Path(...). -/
def pathlibNorm (s : String) : String :=
  match s.data with
  | '.' :: '/' :: rest => String.mk rest
  | _ => s

/-- The f-string argument of test() in BERT.run_BERT (LLM.py line 65):
the const record is built with model_name BERT, and the epoch index is
const total_epochs minus 1. -/
def run_BERT_testPath {L : Type} (epochs bs : Nat) (lr : L) (save_every : Nat) : String :=
  let const := prepare_const epochs bs lr save_every "BERT"
  "./trained_" ++ const.model_name ++ "/Nuclear_epoch" ++ toString (const.total_epochs - 1) ++ ".pt"

/-- The f-string argument of test() in BERT.BERT_DDP (LLM.py line 101),
with model_name BERT_DDP; passed as a raw string, not wrapped in Path. -/
def BERT_DDP_testPath {L : Type} (epochs bs : Nat) (lr : L) (save_every : Nat) : String :=
  let const := prepare_const epochs bs lr save_every "BERT_DDP"
  "./trained_" ++ const.model_name ++ "/Nuclear_epoch" ++ toString (const.total_epochs - 1) ++ ".pt"

/-- The f-string argument of test() in GPT.run_GPT (LLM.py line 179),
with model_name GPT2. -/
def run_GPT_testPath {L : Type} (epochs bs : Nat) (lr : L) (save_every : Nat) : String :=
  let const := prepare_const epochs bs lr save_every "GPT2"
  "./trained_" ++ const.model_name ++ "/Nuclear_epoch" ++ toString (const.total_epochs - 1) ++ ".pt"

/-- The f-string argument of test() in GPT.GPT_DDP (LLM.py line 213):
note the const record reuses model_name GPT2, not a GPT2_DDP tag. -/
def GPT_DDP_testPath {L : Type} (epochs bs : Nat) (lr : L) (save_every : Nat) : String :=
  let const := prepare_const epochs bs lr save_every "GPT2"
  "./trained_" ++ const.model_name ++ "/Nuclear_epoch" ++ toString (const.total_epochs - 1) ++ ".pt"

/-- The f-string argument of test() in Llama.run_LLAMA (LLM.py line 293):
the epoch component is the literal text Nuclear_epoch4.pt — the epoch index
4 is hardcoded and does not mention const total_epochs. -/
def run_LLAMA_testPath {L : Type} (epochs bs : Nat) (lr : L) (save_every : Nat) : String :=
  let const := prepare_const epochs bs lr save_every "Llama"
  "./trained_" ++ const.model_name ++ "/Nuclear_epoch4.pt"

/-- Observable events of the method bodies, used to state ordering,
counting and num_class properties.  Each constructor records the arguments
of the corresponding Python call that the claims talk about. -/
inductive Event where
  | buildCustomModel (checkpoint : String) (num_class : Nat)
  | peftLoad (checkpoint : String)
  | wrapPEFTModel (num_class : Nat)
  | prepareConstEv (model_name : String) (total_epochs : Nat)
  | ddpSetupEv (rank : Nat) (world_size : Nat)
  | mkTrainerSingleEv
  | mkTrainerDDPEv
  | trainEv (max_epochs : Nat)
  | testEv (final_model_path : String)
  | destroyProcessGroupEv
  | printRuntimeEv
  | workerStartEv (rank : Nat)
  | workersJoinedEv
deriving DecidableEq, Repr

def isTestEv : Event → Bool
  | Event.testEv _ => true
  | _ => false

def isDestroyEv : Event → Bool
  | Event.destroyProcessGroupEv => true
  | _ => false

def isDdpSetupEv : Event → Bool
  | Event.ddpSetupEv _ _ => true
  | _ => false

def isMkTrainerDDPEv : Event → Bool
  | Event.mkTrainerDDPEv => true
  | _ => false

def isMkTrainerSingleEv : Event → Bool
  | Event.mkTrainerSingleEv => true
  | _ => false

def isWorkerStartEv : Event → Bool
  | Event.workerStartEv _ => true
  | _ => false

def isWrapPEFTEv : Event → Bool
  | Event.wrapPEFTModel _ => true
  | _ => false

def isPeftEv : Event → Bool
  | Event.peftLoad _ => true
  | Event.wrapPEFTModel _ => true
  | _ => false

def isBuildCustomEv : Event → Bool
  | Event.buildCustomModel _ _ => true
  | _ => false

/-- The num_class arguments of the model-construction calls occurring in a
trace, in order. -/
def builtNumClasses (t : List Event) : List Nat :=
  t.filterMap fun e =>
    match e with
    | Event.buildCustomModel _ n => some n
    | Event.wrapPEFTModel n => some n
    | _ => none

/-- BERT.run_BERT as its straight-line sequence of observable calls:
CustomClassificationModel(self.checkpoint, num_class=3), prepare_const with
model_name BERT, TrainerSingle construction, train(const total_epochs),
test on the Path-wrapped epoch total_epochs-1 checkpoint, and the runtime
print.  gpu_id only selects the device and produces no event here. -/
def run_BERT_trace {DF S DS L : Type} (self : Wrapper DF S DS)
    (epochs bs : Nat) (lr : L) (save_every : Nat) (gpu_id : Nat) : List Event :=
  let const := prepare_const epochs bs lr save_every "BERT"
  [ Event.buildCustomModel self.checkpoint 3,
    Event.prepareConstEv const.model_name const.total_epochs,
    Event.mkTrainerSingleEv,
    Event.trainEv const.total_epochs,
    Event.testEv (pathlibNorm (run_BERT_testPath epochs bs lr save_every)),
    Event.printRuntimeEv ]

/-- GPT.run_GPT, same shape as run_BERT with model_name GPT2. -/
def run_GPT_trace {DF S DS L : Type} (self : Wrapper DF S DS)
    (epochs bs : Nat) (lr : L) (save_every : Nat) (gpu_id : Nat) : List Event :=
  let const := prepare_const epochs bs lr save_every "GPT2"
  [ Event.buildCustomModel self.checkpoint 3,
    Event.prepareConstEv const.model_name const.total_epochs,
    Event.mkTrainerSingleEv,
    Event.trainEv const.total_epochs,
    Event.testEv (pathlibNorm (run_GPT_testPath epochs bs lr save_every)),
    Event.printRuntimeEv ]

/-- Llama.run_LLAMA: loads the quantized base model via the peft factory,
wraps it in PEFTClassificationModel(num_class=3), builds the const record
with model_name Llama, builds a TrainerSingle, trains, and tests on the raw
(not Path-wrapped) hardcoded epoch-4 path, then prints the runtime.  The
intermediate print(model) produces no event relevant to any claim. -/
def run_LLAMA_trace {DF S DS L : Type} (self : Wrapper DF S DS)
    (epochs bs : Nat) (lr : L) (save_every : Nat) (gpu_id : Nat) : List Event :=
  let const := prepare_const epochs bs lr save_every "Llama"
  [ Event.peftLoad self.checkpoint,
    Event.wrapPEFTModel 3,
    Event.prepareConstEv const.model_name const.total_epochs,
    Event.mkTrainerSingleEv,
    Event.trainEv const.total_epochs,
    Event.testEv (run_LLAMA_testPath epochs bs lr save_every),
    Event.printRuntimeEv ]

/-- BERT.BERT_DDP, the per-rank worker body: build the model, build the
const record with model_name BERT_DDP, ddp_setup(rank, world_size),
construct TrainerDDP, train, test on the raw epoch total_epochs-1 path,
then destroy_process_group().  The statements execute in exactly this
order with no try/finally around any of them. -/
def BERT_DDP_stmts {DF S DS L : Type} (self : Wrapper DF S DS)
    (rank world_size epochs bs : Nat) (lr : L) (save_every : Nat) : List Event :=
  let const := prepare_const epochs bs lr save_every "BERT_DDP"
  [ Event.buildCustomModel self.checkpoint 3,
    Event.prepareConstEv const.model_name const.total_epochs,
    Event.ddpSetupEv rank world_size,
    Event.mkTrainerDDPEv,
    Event.trainEv const.total_epochs,
    Event.testEv (BERT_DDP_testPath epochs bs lr save_every),
    Event.destroyProcessGroupEv ]

/-- GPT.GPT_DDP, same worker shape; the const record reuses model_name
GPT2 and the test path is Path-wrapped. -/
def GPT_DDP_stmts {DF S DS L : Type} (self : Wrapper DF S DS)
    (rank world_size epochs bs : Nat) (lr : L) (save_every : Nat) : List Event :=
  let const := prepare_const epochs bs lr save_every "GPT2"
  [ Event.buildCustomModel self.checkpoint 3,
    Event.prepareConstEv const.model_name const.total_epochs,
    Event.ddpSetupEv rank world_size,
    Event.mkTrainerDDPEv,
    Event.trainEv const.total_epochs,
    Event.testEv (pathlibNorm (GPT_DDP_testPath epochs bs lr save_every)),
    Event.destroyProcessGroupEv ]

/-- Executes a straight-line statement list under Python exception
semantics with no try/finally: statements run in order; the first
statement for which raises returns true is still entered (its event is
recorded) but every later statement is skipped, because the exception
propagates out of the function body. -/
def execStmts (stmts : List Event) (raises : Event → Bool) : List Event :=
  match stmts with
  | [] => []
  | e :: rest => if raises e then [e] else e :: execStmts rest raises

/-- Modelled from the documented contract of torch.multiprocessing.spawn
with its default join=True (an external library, not repository code):
the parent starts nprocs worker processes with ranks 0 to nprocs-1 and
blocks until all of them join.  workerStartEv r abstracts the whole worker
process of rank r. -/
def mp_spawn_trace (nprocs : Nat) : List Event :=
  ((List.range nprocs).map Event.workerStartEv) ++ [Event.workersJoinedEv]

/-- BERT.run_BERT_DDP from the parent process's point of view:
mp.spawn(self.BERT_DDP, args=(world_size, epochs, bs, lr, save_every),
nprocs=world_size), then the runtime print.  epochs, bs, lr and save_every
are forwarded to the workers and produce no parent-side event. -/
def run_BERT_DDP_trace {L : Type} (world_size epochs bs : Nat) (lr : L)
    (save_every : Nat) : List Event :=
  mp_spawn_trace world_size ++ [Event.printRuntimeEv]

/-- GPT.run_GPT_DDP, identical parent-side structure. -/
def run_GPT_DDP_trace {L : Type} (world_size epochs bs : Nat) (lr : L)
    (save_every : Nat) : List Event :=
  mp_spawn_trace world_size ++ [Event.printRuntimeEv]

/-- The method names defined in class BERT, in source order. -/
def BERT_methods : List String := ["__init__", "run_BERT", "BERT_DDP", "run_BERT_DDP"]

/-- The method names defined in class GPT, in source order. -/
def GPT_methods : List String := ["__init__", "run_GPT", "GPT_DDP", "run_GPT_DDP"]

/-- The method names defined in class Llama, in source order: the class
body ends after run_LLAMA. -/
def Llama_methods : List String := ["__init__", "run_LLAMA"]

/-- Whether a method name carries the _DDP suffix used by the distributed
run methods and workers. -/
def endsWithDDP (s : String) : Bool :=
  match s.data.reverse with
  | 'P' :: 'D' :: 'D' :: '_' :: _ => true
  | _ => false

/-- Sequential composition of fallible statements with no exception
handler: the first error aborts the sequence and becomes the result. -/
def seqE : List (Except String Unit) → Except String Unit
  | [] => Except.ok ()
  | Except.ok _ :: rest => seqE rest
  | Except.error e :: _ => Except.error e

/-- BERT.run_BERT as a sequential composition of its six fallible steps
(build model, build const, build trainer, train, test, print), in source
order, with no try/except anywhere in the body. -/
def run_BERT_result (buildModel prepConst mkTrainer trainRes testRes printRes :
    Except String Unit) : Except String Unit :=
  seqE [buildModel, prepConst, mkTrainer, trainRes, testRes, printRes]

/-- BERT.BERT_DDP as a sequential composition of its seven fallible steps,
in source order, with no try/except in the body. -/
def BERT_DDP_result (buildModel prepConst setupRes mkTrainer trainRes testRes destroyRes :
    Except String Unit) : Except String Unit :=
  seqE [buildModel, prepConst, setupRes, mkTrainer, trainRes, testRes, destroyRes]

/-- Modelled from the documented contract of torch.multiprocessing.spawn
with join=True (external library): it runs one worker per rank in
0..nprocs-1 and re-raises a failure of any worker in the parent, so its
result is ok exactly when every worker finished without error. -/
def mp_spawn_result (nprocs : Nat) (worker : Nat → Except String Unit) :
    Except String Unit :=
  seqE ((List.range nprocs).map worker)

/-- BERT.run_BERT_DDP as a sequential composition: the spawn call followed
by the runtime print, with no try/except. -/
def run_BERT_DDP_result (world_size : Nat) (worker : Nat → Except String Unit)
    (printRes : Except String Unit) : Except String Unit :=
  seqE [mp_spawn_result world_size worker, printRes]

/-- A concrete instantiation of the external collaborators over Nat-valued
frames, columns and datasets, used to run the embedding on closed inputs. -/
def sampleExt : Ext Nat Nat Nat :=
  { read_csv := fun _ _ => 0
    label_converter := fun _ _ _ _ => 1
    getCol := fun d _ => d
    prepare_dataset_BERT := fun _ _ _ _ _ _ => (0, 0, 0)
    prepare_dataset := fun _ _ _ _ _ _ => (0, 0, 0) }

/-- A concrete BERT wrapper built by the embedded BERT.__init__. -/
def sampleBERT : Wrapper Nat Nat Nat :=
  BERT_init sampleExt "reviews.csv" "text" "label" 128 2 1 42 "utf-8"

/-- A concrete GPT wrapper built by the embedded GPT.__init__. -/
def sampleGPT : Wrapper Nat Nat Nat :=
  GPT_init sampleExt "reviews.csv" "text" "label" 128 2 1 42 "utf-8"

/-- Helper: seqE succeeds exactly when every statement in the sequence
succeeds. -/
theorem seqE_eq_ok_iff (l : List (Except String Unit)) :
    seqE l = Except.ok () ↔ ∀ x ∈ l, x = Except.ok () := by
  induction l with
  | nil => simp [seqE]
  | cons h t ih =>
    cases h with
    | ok u => cases u; simp [seqE, ih]
    | error e => simp [seqE]

/-- Helper: an error produced by seqE is the error of one of its
statements, never a new or transformed one. -/
theorem seqE_error_mem (l : List (Except String Unit)) (e : String)
    (h : seqE l = Except.error e) : Except.error e ∈ l := by
  induction l with
  | nil => simp [seqE] at h
  | cons x t ih =>
    cases x with
    | ok u =>
      cases u
      simp only [seqE] at h
      exact List.mem_cons_of_mem _ (ih h)
    | error f =>
      simp only [seqE] at h
      cases h
      exact List.mem_cons_self _ _

/-- Claim C1: the spec says the single-device run methods always pass the
epoch total_epochs-1 checkpoint path to test().  BERT.run_BERT and
GPT.run_GPT do, but Llama.run_LLAMA passes a hardcoded epoch-4 path: at
epochs = 2, bs = 8, lr = 1, save_every = 1 it passes
trained_Llama/Nuclear_epoch4.pt instead of the epoch-1 path, so the code
contradicts the convention its sibling methods implement. -/
theorem C1_run_LLAMA_passes_hardcoded_epoch4_path :
    run_LLAMA_testPath 2 8 (1 : Nat) 1 = "./trained_Llama/Nuclear_epoch4.pt"
    ∧ checkpointPath "Llama" (2 - 1) = "./trained_Llama/Nuclear_epoch1.pt"
    ∧ run_LLAMA_testPath 2 8 (1 : Nat) 1 ≠ checkpointPath "Llama" (2 - 1)
    ∧ run_BERT_testPath 2 8 (1 : Nat) 1 = checkpointPath "BERT" (2 - 1)
    ∧ run_GPT_testPath 2 8 (1 : Nat) 1 = checkpointPath "GPT2" (2 - 1) := by
  refine ⟨rfl, rfl, ?_, rfl, rfl⟩
  decide

/-- Claim C2, counterexample: at rank 0, world_size 2, epochs 1, bs 8,
lr 1, save_every 1, executing the worker bodies on the exit path where
test() raises leaves zero destroy_process_group calls in the executed
trace, for both BERT_DDP and GPT_DDP — not the exactly-one call the claim
asserts for every exit path. -/
theorem C2_counterexample_no_teardown_when_test_raises :
    (execStmts (BERT_DDP_stmts sampleBERT 0 2 1 8 (1 : Nat) 1) isTestEv).countP isDestroyEv = 0
    ∧ (execStmts (GPT_DDP_stmts sampleGPT 0 2 1 8 (1 : Nat) 1) isTestEv).countP isDestroyEv = 0 := by
  constructor <;> decide

/-- Claim C2, amended: in both DDP worker functions destroy_process_group
is called exactly once on the normal exit path, after train and test
complete; on the exit path where test() raises it is not called at all,
because the worker body has no try/finally. -/
theorem C2_teardown_once_on_normal_path_only :
    ∀ {DF S DS L : Type} (self : Wrapper DF S DS) (rank world_size epochs bs : Nat)
      (lr : L) (save_every : Nat),
    (execStmts (BERT_DDP_stmts self rank world_size epochs bs lr save_every)
        (fun _ => false)).countP isDestroyEv = 1
    ∧ (execStmts (BERT_DDP_stmts self rank world_size epochs bs lr save_every)
        isTestEv).countP isDestroyEv = 0
    ∧ (execStmts (GPT_DDP_stmts self rank world_size epochs bs lr save_every)
        (fun _ => false)).countP isDestroyEv = 1
    ∧ (execStmts (GPT_DDP_stmts self rank world_size epochs bs lr save_every)
        isTestEv).countP isDestroyEv = 0 := by
  intros
  refine ⟨?_, ?_, ?_, ?_⟩ <;>
    simp [BERT_DDP_stmts, GPT_DDP_stmts, execStmts, isTestEv, isDestroyEv,
      List.countP_cons, List.countP_nil]

/-- Claim C3, counterexample: the Llama class exposes no distributed run
method at all — no method of the class carries the _DDP suffix, and in
particular run_LLAMA_DDP does not exist — while the claim asserts every
wrapper class exposes a run_<NAME>_DDP operation. -/
theorem C3_counterexample_llama_has_no_ddp_method :
    Llama_methods.any endsWithDDP = false
    ∧ ¬ ("run_LLAMA_DDP" ∈ Llama_methods)
    ∧ ¬ ("run_Llama_DDP" ∈ Llama_methods) := by
  refine ⟨rfl, ?_, ?_⟩ <;> decide

/-- Claim C3, amended: BERT and GPT each expose the single-device run
method and the distributed run_<NAME>_DDP method; Llama exposes only the
single-device run_LLAMA and no DDP method of any name.  The last two
conjuncts check that the _DDP detector recognises the BERT and GPT
distributed method names, so the Llama conjunct is not vacuous. -/
theorem C3_bert_gpt_expose_both_llama_only_single :
    "run_BERT" ∈ BERT_methods ∧ "run_BERT_DDP" ∈ BERT_methods
    ∧ "run_GPT" ∈ GPT_methods ∧ "run_GPT_DDP" ∈ GPT_methods
    ∧ "run_LLAMA" ∈ Llama_methods ∧ Llama_methods.any endsWithDDP = false
    ∧ endsWithDDP "run_BERT_DDP" = true ∧ endsWithDDP "run_GPT_DDP" = true := by
  refine ⟨?_, ?_, ?_, ?_, ?_, rfl, rfl, rfl⟩ <;> decide

/-- Claim C4: for every hyperparameter setting with epochs at least 1 and
every model name and epoch index, each of the five test-time path
construction sites produces exactly the application of the single pure
function checkpointPath to its (model_name, epoch) pair — BERT with
model_name BERT, BERT_DDP with BERT_DDP, both GPT sites with GPT2, and
run_LLAMA with Llama at its fixed epoch 4 — and after the pathlib
normalization the constructed string is exactly
trained_<model_name>/Nuclear_epoch<epoch>.pt. -/
theorem C4_checkpoint_path_is_pure_function :
    ∀ {L : Type} (lr : L) (epochs bs save_every : Nat) (model_name : String) (epoch : Nat),
    1 ≤ epochs →
    run_BERT_testPath epochs bs lr save_every = checkpointPath "BERT" (epochs - 1)
    ∧ BERT_DDP_testPath epochs bs lr save_every = checkpointPath "BERT_DDP" (epochs - 1)
    ∧ run_GPT_testPath epochs bs lr save_every = checkpointPath "GPT2" (epochs - 1)
    ∧ GPT_DDP_testPath epochs bs lr save_every = checkpointPath "GPT2" (epochs - 1)
    ∧ run_LLAMA_testPath epochs bs lr save_every = checkpointPath "Llama" 4
    ∧ pathlibNorm (checkpointPath model_name epoch)
        = "trained_" ++ model_name ++ "/Nuclear_epoch" ++ toString epoch ++ ".pt" := by
  intro L lr epochs bs save_every model_name epoch _
  refine ⟨rfl, rfl, rfl, rfl, rfl, ?_⟩
  obtain ⟨cs⟩ := model_name
  rfl

/-- Claim C4, witness at epochs = 2, bs = 8, lr = 1, save_every = 1,
model_name BERT, epoch 1. -/
theorem C4_checkpoint_path_is_pure_function_witness :
    run_BERT_testPath 2 8 (1 : Nat) 1 = checkpointPath "BERT" (2 - 1)
    ∧ BERT_DDP_testPath 2 8 (1 : Nat) 1 = checkpointPath "BERT_DDP" (2 - 1)
    ∧ run_GPT_testPath 2 8 (1 : Nat) 1 = checkpointPath "GPT2" (2 - 1)
    ∧ GPT_DDP_testPath 2 8 (1 : Nat) 1 = checkpointPath "GPT2" (2 - 1)
    ∧ run_LLAMA_testPath 2 8 (1 : Nat) 1 = checkpointPath "Llama" 4
    ∧ pathlibNorm (checkpointPath "BERT" 1)
        = "trained_" ++ "BERT" ++ "/Nuclear_epoch" ++ toString 1 ++ ".pt" :=
  C4_checkpoint_path_is_pure_function (1 : Nat) 2 8 1 "BERT" 1 (by decide)

/-- Helper: the spawn segment of the parent trace contains exactly one
worker-start event per rank in 0..n-1. -/
theorem countP_workerStart_range (n : Nat) :
    ((List.range n).map Event.workerStartEv).countP isWorkerStartEv = n := by
  induction n with
  | zero => rfl
  | succ k ih =>
    rw [List.range_succ, List.map_append, List.countP_append, ih]
    rfl

/-- Claim C5: for every world_size at least 1 (and any hyperparameters),
the parent traces of run_BERT_DDP and run_GPT_DDP contain exactly
world_size worker-start events, and what follows those world_size events
is exactly the join of all workers and then the runtime print — so the
parent blocks until every spawned worker terminates and only then prints
the wall-clock runtime. -/
theorem C5_spawn_world_size_join_then_print :
    ∀ {L : Type} (lr : L) (world_size epochs bs save_every : Nat),
    1 ≤ world_size →
    (run_BERT_DDP_trace world_size epochs bs lr save_every).countP isWorkerStartEv = world_size
    ∧ (run_BERT_DDP_trace world_size epochs bs lr save_every).drop world_size
        = [Event.workersJoinedEv, Event.printRuntimeEv]
    ∧ (run_GPT_DDP_trace world_size epochs bs lr save_every).countP isWorkerStartEv = world_size
    ∧ (run_GPT_DDP_trace world_size epochs bs lr save_every).drop world_size
        = [Event.workersJoinedEv, Event.printRuntimeEv] := by
  intro L lr world_size epochs bs save_every _
  have hlen : ((List.range world_size).map Event.workerStartEv).length = world_size := by
    simp
  have hcount :
      (((List.range world_size).map Event.workerStartEv)
          ++ ([Event.workersJoinedEv] ++ [Event.printRuntimeEv])).countP isWorkerStartEv
        = world_size := by
    rw [List.countP_append, countP_workerStart_range]
    rfl
  have hdrop :
      (((List.range world_size).map Event.workerStartEv)
          ++ ([Event.workersJoinedEv] ++ [Event.printRuntimeEv])).drop world_size
        = [Event.workersJoinedEv, Event.printRuntimeEv] := by
    have h2 := List.drop_left ((List.range world_size).map Event.workerStartEv)
      ([Event.workersJoinedEv] ++ [Event.printRuntimeEv])
    rw [hlen] at h2
    rw [h2]
    rfl
  refine ⟨?_, ?_, ?_, ?_⟩ <;>
    simp only [run_BERT_DDP_trace, run_GPT_DDP_trace, mp_spawn_trace, List.append_assoc] <;>
    first
      | exact hcount
      | exact hdrop

/-- Claim C5, witness at world_size = 2, epochs = 1, bs = 8, lr = 1,
save_every = 1. -/
theorem C5_spawn_world_size_join_then_print_witness :
    (run_BERT_DDP_trace 2 1 8 (1 : Nat) 1).countP isWorkerStartEv = 2
    ∧ (run_BERT_DDP_trace 2 1 8 (1 : Nat) 1).drop 2
        = [Event.workersJoinedEv, Event.printRuntimeEv]
    ∧ (run_GPT_DDP_trace 2 1 8 (1 : Nat) 1).countP isWorkerStartEv = 2
    ∧ (run_GPT_DDP_trace 2 1 8 (1 : Nat) 1).drop 2
        = [Event.workersJoinedEv, Event.printRuntimeEv] :=
  C5_spawn_world_size_join_then_print (1 : Nat) 2 1 8 1 (by decide)

/-- Claim C6: no error raised during a run is caught or retried inside
run_BERT, the BERT_DDP worker, or run_BERT_DDP (GPT mirrors BERT exactly):
each composition succeeds exactly when every one of its steps succeeds, a
failure of any spawned worker makes the parent's spawn-then-print
composition fail instead of being swallowed, and any error run_BERT
surfaces is the unmodified error of one of its own steps. -/
theorem C6_errors_propagate_uncaught :
    (∀ buildModel prepConst mkTrainer trainRes testRes printRes : Except String Unit,
      run_BERT_result buildModel prepConst mkTrainer trainRes testRes printRes = Except.ok ()
        ↔ (buildModel = Except.ok () ∧ prepConst = Except.ok () ∧ mkTrainer = Except.ok ()
            ∧ trainRes = Except.ok () ∧ testRes = Except.ok () ∧ printRes = Except.ok ()))
    ∧ (∀ buildModel prepConst setupRes mkTrainer trainRes testRes destroyRes : Except String Unit,
      BERT_DDP_result buildModel prepConst setupRes mkTrainer trainRes testRes destroyRes
          = Except.ok ()
        ↔ (buildModel = Except.ok () ∧ prepConst = Except.ok () ∧ setupRes = Except.ok ()
            ∧ mkTrainer = Except.ok () ∧ trainRes = Except.ok () ∧ testRes = Except.ok ()
            ∧ destroyRes = Except.ok ()))
    ∧ (∀ (world_size : Nat) (worker : Nat → Except String Unit)
        (printRes : Except String Unit),
      run_BERT_DDP_result world_size worker printRes = Except.ok ()
        ↔ ((∀ r, r < world_size → worker r = Except.ok ()) ∧ printRes = Except.ok ()))
    ∧ (∀ (buildModel prepConst mkTrainer trainRes testRes printRes : Except String Unit)
        (e : String),
      run_BERT_result buildModel prepConst mkTrainer trainRes testRes printRes
          = Except.error e
        → Except.error e ∈ [buildModel, prepConst, mkTrainer, trainRes, testRes, printRes]) := by
  refine ⟨?_, ?_, ?_, ?_⟩
  · intro b c m t s p
    rw [run_BERT_result, seqE_eq_ok_iff]
    simp
  · intro b c st m t s d
    rw [BERT_DDP_result, seqE_eq_ok_iff]
    simp
  · intro world_size worker printRes
    rw [run_BERT_DDP_result, seqE_eq_ok_iff]
    simp only [List.mem_cons, List.mem_singleton, List.not_mem_nil, or_false,
      forall_eq_or_imp, forall_eq]
    rw [mp_spawn_result, seqE_eq_ok_iff]
    simp [List.mem_map, List.mem_range]
  · intro b c m t s p e h
    exact seqE_error_mem _ e h

/-- Claim C7: in both DDP worker bodies the ddp_setup(rank, world_size)
statement occurs strictly before the TrainerDDP construction, for every
choice of wrapper state and hyperparameters. -/
theorem C7_ddp_setup_before_trainer_construction :
    ∀ {DF S DS L : Type} (self : Wrapper DF S DS) (rank world_size epochs bs : Nat)
      (lr : L) (save_every : Nat),
    (BERT_DDP_stmts self rank world_size epochs bs lr save_every).findIdx isDdpSetupEv
      < (BERT_DDP_stmts self rank world_size epochs bs lr save_every).findIdx isMkTrainerDDPEv
    ∧ (GPT_DDP_stmts self rank world_size epochs bs lr save_every).findIdx isDdpSetupEv
      < (GPT_DDP_stmts self rank world_size epochs bs lr save_every).findIdx isMkTrainerDDPEv := by
  intros
  constructor <;>
    simp [BERT_DDP_stmts, GPT_DDP_stmts, List.findIdx_cons, isDdpSetupEv,
      isMkTrainerDDPEv]

/-- Claim C8: run_LLAMA, and only the Llama family's single-device run
method, applies parameter-efficient adaptation before training: its trace
loads the quantized base model through the peft factory and wraps it in
PEFTClassificationModel strictly before the trainer is constructed, and it
never builds a plain CustomClassificationModel, whereas run_BERT and
run_GPT build a plain CustomClassificationModel directly and contain no
peft event at all. -/
theorem C8_only_run_LLAMA_applies_peft :
    ∀ {DF S DS L : Type} (self : Wrapper DF S DS) (epochs bs : Nat) (lr : L)
      (save_every gpu_id : Nat),
    Event.peftLoad self.checkpoint ∈ run_LLAMA_trace self epochs bs lr save_every gpu_id
    ∧ Event.wrapPEFTModel 3 ∈ run_LLAMA_trace self epochs bs lr save_every gpu_id
    ∧ (run_LLAMA_trace self epochs bs lr save_every gpu_id).findIdx isWrapPEFTEv
        < (run_LLAMA_trace self epochs bs lr save_every gpu_id).findIdx isMkTrainerSingleEv
    ∧ (run_LLAMA_trace self epochs bs lr save_every gpu_id).countP isBuildCustomEv = 0
    ∧ Event.buildCustomModel self.checkpoint 3 ∈ run_BERT_trace self epochs bs lr save_every gpu_id
    ∧ (run_BERT_trace self epochs bs lr save_every gpu_id).countP isPeftEv = 0
    ∧ Event.buildCustomModel self.checkpoint 3 ∈ run_GPT_trace self epochs bs lr save_every gpu_id
    ∧ (run_GPT_trace self epochs bs lr save_every gpu_id).countP isPeftEv = 0 := by
  intros
  refine ⟨?_, ?_, ?_, ?_, ?_, ?_, ?_, ?_⟩ <;>
    simp [run_LLAMA_trace, run_BERT_trace, run_GPT_trace, List.findIdx_cons,
      isWrapPEFTEv, isMkTrainerSingleEv, isBuildCustomEv, isPeftEv,
      List.countP_cons, List.countP_nil]

/-- Claim C9: the __init__ methods of BERT, GPT and Llama accept
max_length, test_size, val_size and seed but never read them, so two
constructor calls that agree on data_path, input_col, output_col and
encoding (against the same external collaborators) build identical wrapper
objects no matter how those four parameters differ. -/
theorem C9_init_ignores_max_length_test_size_val_size_seed :
    ∀ {DF S DS M T V SD : Type} (ext : Ext DF S DS)
      (data_path input_col output_col encoding : String)
      (ml ml2 : M) (ts ts2 : T) (vs vs2 : V) (sd sd2 : SD),
    BERT_init ext data_path input_col output_col ml ts vs sd encoding
      = BERT_init ext data_path input_col output_col ml2 ts2 vs2 sd2 encoding
    ∧ GPT_init ext data_path input_col output_col ml ts vs sd encoding
      = GPT_init ext data_path input_col output_col ml2 ts2 vs2 sd2 encoding
    ∧ Llama_init ext data_path input_col output_col ml ts vs sd encoding
      = Llama_init ext data_path input_col output_col ml2 ts2 vs2 sd2 encoding := by
  intros
  exact ⟨rfl, rfl, rfl⟩

/-- Claim C10: every model-constructing run method and worker of every
family builds its classification model with exactly num_class 3,
independently of the wrapper state and hence of how many distinct labels
the loaded dataset actually contains. -/
theorem C10_every_model_built_with_three_classes :
    ∀ {DF S DS L : Type} (self : Wrapper DF S DS) (rank world_size epochs bs : Nat)
      (lr : L) (save_every gpu_id : Nat),
    builtNumClasses (run_BERT_trace self epochs bs lr save_every gpu_id) = [3]
    ∧ builtNumClasses (BERT_DDP_stmts self rank world_size epochs bs lr save_every) = [3]
    ∧ builtNumClasses (run_GPT_trace self epochs bs lr save_every gpu_id) = [3]
    ∧ builtNumClasses (GPT_DDP_stmts self rank world_size epochs bs lr save_every) = [3]
    ∧ builtNumClasses (run_LLAMA_trace self epochs bs lr save_every gpu_id) = [3] := by
  intros
  refine ⟨?_, ?_, ?_, ?_, ?_⟩ <;>
    simp [builtNumClasses, run_BERT_trace, BERT_DDP_stmts, run_GPT_trace,
      GPT_DDP_stmts, run_LLAMA_trace, List.filterMap_cons]

end LLMModule
